import Mathlib

/-!
Shallow embedding of the reone scripting virtual machine core, translated from
src/src/libs/script/virtualmachine.cpp, src/include/reone/script/variable.h,
src/include/reone/script/executioncontext.h, src/unnamed/part_008 (variable.cpp)
and src/src/libs/game/action/docommand.cpp.

Modelling conventions:
- 32-bit script floats are modelled as rationals; the verified claims only
  exercise exact decimal values, where float and rational evaluation agree.
- 32-bit script ints are modelled as unbounded integers; no verified claim
  reaches the overflow range, where C++ behaviour would be undefined anyway.
- C++ integer division truncates toward zero, which is Int.tdiv.
- Shared-pointer engine-type handles and action contexts are compared by
  identity in the C++ (Variable::operator==); they are modelled as optional
  numeric handles. The diagnostic id counter of Variable is excluded, as
  the C++ operator== ignores it.
- Out-of-range std::vector indexing is undefined behaviour in the C++; the
  model makes reads return a default and writes no-ops, and theorems about
  indexed instructions carry in-range hypotheses where the distinction matters.
- The operand stack is a list whose last element is the top of the stack,
  matching the push_back/pop_back discipline of the C++ std::vector.
-/

namespace Reone

/-- Script float values, modelled as rationals (see module docstring). -/
abbrev SFloat := Rat

/-- Absolute value as the fabs call in the handlers computes it. -/
def fabsQ (q : SFloat) : SFloat := if q < 0 then -q else q

/-- Variable type tags, from include/reone/script/types.h as used by
include/reone/script/variable.h. -/
inductive VariableType
  | Void
  | Int
  | Float
  | String
  | Object
  | Vector
  | Effect
  | Event
  | Location
  | Talent
  | Action
deriving DecidableEq

/-- Tagged variable value, from include/reone/script/variable.h. Exactly one
payload is meaningful per tag. -/
inductive Variable
  | void
  | int (intValue : Int)
  | float (floatValue : SFloat)
  | str (strValue : String)
  | vec (x y z : SFloat)
  | object (objectId : Nat)
  | effect (engineType : Option Nat)
  | event (engineType : Option Nat)
  | location (engineType : Option Nat)
  | talent (engineType : Option Nat)
  | action (context : Option Nat)
deriving DecidableEq

/-- The type tag of a variable. -/
def Variable.typeTag : Variable → VariableType
  | .void => .Void
  | .int _ => .Int
  | .float _ => .Float
  | .str _ => .String
  | .vec _ _ _ => .Vector
  | .object _ => .Object
  | .effect _ => .Effect
  | .event _ => .Event
  | .location _ => .Location
  | .talent _ => .Talent
  | .action _ => .Action

/-- The invalid-object sentinel; the spec fixes its value to 0. -/
def kObjectInvalid : Nat := 0

/-- Modelled from the spec: the self-object sentinel constant lives in a header
that is not under src. Its numeric value is irrelevant to the claims, which use
it only through equality tests; it is fixed here to a value distinct from
kObjectInvalid and from the object ids appearing in the scenarios. -/
def kObjectSelf : Nat := 1

/-- Argument kinds, from src/unnamed/part_008 (variable.cpp), which also
handles the ClickingObject kind. -/
inductive ArgKind
  | Caller
  | ScriptVar
  | UserDefinedEventNumber
  | ClickingObject
  | EnteringObject
  | ExitingObject
  | LastClosedBy
  | LastOpenedBy
  | LastPerceived
  | LastPerceptionHeard
  | LastPerceptionInaudible
  | LastPerceptionSeen
  | LastPerceptionVanished
deriving DecidableEq

/-- Kinds that Argument::verify requires to hold an Object variable
(src/unnamed/part_008, lines 234-240). -/
def ArgKind.isObjectKind : ArgKind → Bool
  | .Caller | .ClickingObject | .EnteringObject | .ExitingObject
  | .LastClosedBy | .LastOpenedBy | .LastPerceived => true
  | _ => false

/-- Kinds that Argument::verify requires to hold an Int variable
(src/unnamed/part_008, lines 246-251). -/
def ArgKind.isNumericKind : ArgKind → Bool
  | .ScriptVar | .UserDefinedEventNumber | .LastPerceptionHeard
  | .LastPerceptionInaudible | .LastPerceptionSeen | .LastPerceptionVanished => true
  | _ => false

/-- An Argument pairs a kind with a variable (include/reone/script/variable.h). -/
structure Argument where
  kind : ArgKind
  var : Variable
deriving DecidableEq

/-- Argument::verify from src/unnamed/part_008 lines 232-261: object kinds must
hold an Object variable whose id is not the self sentinel; numeric kinds must
hold an Int variable; anything else raises invalid_argument. -/
def verifyArgument (kind : ArgKind) (var : Variable) : Except Unit Unit :=
  match kind with
  | .Caller | .ClickingObject | .EnteringObject | .ExitingObject
  | .LastClosedBy | .LastOpenedBy | .LastPerceived =>
    match var with
    | .object objectId => if objectId = kObjectSelf then .error () else .ok ()
    | _ => .error ()
  | .ScriptVar | .UserDefinedEventNumber | .LastPerceptionHeard
  | .LastPerceptionInaudible | .LastPerceptionSeen | .LastPerceptionVanished =>
    match var with
    | .int _ => .ok ()
    | _ => .error ()

/-- The verifying Argument constructor (include/reone/script/variable.h lines
103-107): runs verify and either yields the argument or the construction-time
error. -/
def mkArgument (kind : ArgKind) (var : Variable) : Except Unit Argument :=
  match verifyArgument kind var with
  | .ok _ => .ok ⟨kind, var⟩
  | .error e => .error e

/-- The kind/variable pairing the spec requires of a well-formed Argument. -/
def argPairingOk (kind : ArgKind) (var : Variable) : Prop :=
  (kind.isObjectKind = true →
    ∃ objectId, var = Variable.object objectId ∧ objectId ≠ kObjectSelf) ∧
  (kind.isNumericKind = true → ∃ n, var = Variable.int n)

/-- Instruction opcodes. This embeds the subset of the dispatch table of
virtualmachine.cpp (lines 42-139) that the verified claims exercise, plus an
UNKNOWN code standing for any decoded opcode without a registered handler. -/
inductive InstructionType
  | CPDOWNSP
  | RSADDI
  | CPTOPSP
  | CONSTI
  | CONSTF
  | EQUALFF
  | NEQUALFF
  | SHRIGHTII
  | ADDII
  | DIVFF
  | MOVSP
  | JMP
  | JSR
  | JZ
  | JNZ
  | RETN
  | CPDOWNBP
  | CPTOPBP
  | SAVEBP
  | RESTOREBP
  | STORE_STATE
  | NOP
  | NOP2
  | UNKNOWN (code : Nat)
deriving DecidableEq

/-- Whether the opcode has a handler registered in the dispatch table built in
the VirtualMachine constructor (virtualmachine.cpp lines 42-139). -/
def hasHandler : InstructionType → Bool
  | .UNKNOWN _ => false
  | _ => true

/-- A decoded instruction: opcode plus its byte offset, natural successor
offset, and the opcode-specific encoded fields read by the handlers. -/
structure Instruction where
  type : InstructionType
  offset : Nat
  nextOffset : Nat
  size : Int
  stackOffset : Int
  sizeLocals : Int
  sizeNoDestroy : Int
  jumpOffset : Int
  intValue : Int
  floatValue : SFloat
  strValue : String
  objectId : Nat
  routine : Nat
  argCount : Nat
deriving DecidableEq

/-- An instruction with the given opcode and offsets and all encoded fields
zeroed; concrete programs override the fields they need. -/
def Instruction.mk0 (t : InstructionType) (offset nextOffset : Nat) : Instruction :=
  ⟨t, offset, nextOffset, 0, 0, 0, 0, 0, 0, 0, "", 0, 0, 0⟩

/-- A decoded program: a name, a byte length, and instructions keyed by their
byte offsets. -/
structure ScriptProgram where
  name : String
  length : Nat
  instructions : List Instruction
deriving DecidableEq

/-- Look up the instruction at a byte offset. -/
def ScriptProgram.getInstruction (p : ScriptProgram) (offset : Nat) : Option Instruction :=
  p.instructions.find? (fun i => i.offset == offset)

/-- A saved execution state: snapshots of globals and locals, the originating
program, and the offset to resume at (see executioncontext.h and the uses in
virtualmachine.cpp lines 202-211 and 1082-1101). -/
structure ExecutionState where
  globals : List Variable
  locals : List Variable
  program : Option ScriptProgram
  insOffset : Nat
deriving DecidableEq

/-- The default-constructed saved state held by a fresh VirtualMachine. -/
def ExecutionState.empty : ExecutionState := ⟨[], [], none, 0⟩

/-- Execution context (include/reone/script/executioncontext.h): an optional
saved state to resume from and the ordered engine arguments. The routine-table
pointer is an external collaborator and is not modelled. -/
structure ExecutionContext where
  savedState : Option ExecutionState
  args : List Argument
deriving DecidableEq

/-- The mutable interpreter state of VirtualMachine::run: operand stack,
return-address stack, the global/local boundary, the pending next-instruction
offset, the saved-state member written by STORE_STATE, and the cursor. -/
structure MachineState where
  stack : List Variable
  returnOffsets : List Nat
  globalCount : Int
  nextInstruction : Nat
  savedState : ExecutionState
  insOff : Nat
deriving DecidableEq

/-- Pop the back of the operand stack. The C++ calls back() and pop_back();
popping an empty stack is undefined behaviour there and is modelled as an
error. -/
def popVar (s : List Variable) : Except Unit (Variable × List Variable) :=
  match s.getLast? with
  | some v => .ok (v, s.dropLast)
  | none => .error ()

/-- VirtualMachine::getIntFromStack (lines 1103-1110). -/
def getIntFromStack (s : List Variable) : Except Unit (Int × List Variable) :=
  match popVar s with
  | .ok (Variable.int n, rest) => .ok (n, rest)
  | .ok _ => .error ()
  | .error e => .error e

/-- VirtualMachine::getFloatFromStack (lines 1112-1119). -/
def getFloatFromStack (s : List Variable) : Except Unit (SFloat × List Variable) :=
  match popVar s with
  | .ok (Variable.float f, rest) => .ok (f, rest)
  | .ok _ => .error ()
  | .error e => .error e

/-- VirtualMachine::getVectorFromStack (lines 1121-1127): pops z, then y, then
x, and assembles the vector as (x, y, z). -/
def getVectorFromStack (s : List Variable) :
    Except Unit ((SFloat × SFloat × SFloat) × List Variable) :=
  match getFloatFromStack s with
  | .error e => .error e
  | .ok (z, s1) =>
    match getFloatFromStack s1 with
    | .error e => .error e
    | .ok (y, s2) =>
      match getFloatFromStack s2 with
      | .error e => .error e
      | .ok (x, s3) => .ok ((x, y, z), s3)

/-- VirtualMachine::withStackVariables (lines 1129-1137): pops the second
operand (the top), then the first, and hands them over in (first, second)
order. -/
def withStackVariables (s : List Variable) :
    Except Unit (Variable × Variable × List Variable) :=
  match popVar s with
  | .error e => .error e
  | .ok (second, s1) =>
    match popVar s1 with
    | .error e => .error e
    | .ok (first, s2) => .ok (first, second, s2)

/-- VirtualMachine::withIntsFromStack (lines 1139-1145), with the handler
lambda pushing exactly one result variable. -/
def withIntsFromStack (fn : Int → Int → Variable) (s : List Variable) :
    Except Unit (List Variable) :=
  match withStackVariables s with
  | .ok (Variable.int l, Variable.int r, rest) => .ok (rest ++ [fn l r])
  | .ok _ => .error ()
  | .error e => .error e

/-- VirtualMachine::withFloatsFromStack (lines 1163-1169), with the handler
lambda pushing exactly one result variable. -/
def withFloatsFromStack (fn : SFloat → SFloat → Variable) (s : List Variable) :
    Except Unit (List Variable) :=
  match withStackVariables s with
  | .ok (Variable.float l, Variable.float r, rest) => .ok (rest ++ [fn l r])
  | .ok _ => .error ()
  | .error e => .error e

namespace VirtualMachine

/-- The fixed entry offset (virtualmachine.cpp line 33). -/
def kStartInstructionOffset : Nat := 13

/-- The float tolerance constant 1e-5 (virtualmachine.cpp line 34), exact in
the rational model. -/
def kFloatTolerance : SFloat := 1 / 100000

/-- The sequential copy loop in CPDOWNSP and CPDOWNBP: count times, assign
stack slot dst from slot src and advance both, reading through the partly
updated stack exactly as the C++ loop does. -/
def copySlots (s : List Variable) (src dst : Int) : Nat → List Variable
  | 0 => s
  | Nat.succ n =>
    copySlots (s.set dst.toNat (s.getD src.toNat Variable.void)) (src + 1) (dst + 1) n

/-- The sequential push loop in CPTOPSP and CPTOPBP: count times, push the
variable found at slot src onto the stack and advance src. -/
def pushSlots (s : List Variable) (src : Int) : Nat → List Variable
  | 0 => s
  | Nat.succ n => pushSlots (s ++ [s.getD src.toNat Variable.void]) (src + 1) n

/-- The sequential read loop in STORE_STATE: count times, read the variable at
slot src into a freshly built snapshot and advance src. -/
def readSlots (s : List Variable) (src : Int) : Nat → List Variable
  | 0 => []
  | Nat.succ n => s.getD src.toNat Variable.void :: readSlots s (src + 1) n

/-- VirtualMachine::executeCPDOWNSP (lines 266-274). -/
def executeCPDOWNSP (stack : List Variable) (ins : Instruction) : List Variable :=
  let count : Int := Int.tdiv ins.size 4
  let srcIdx : Int := (stack.length : Int) - count
  let dstIdx : Int := (stack.length : Int) + Int.tdiv ins.stackOffset 4
  copySlots stack srcIdx dstIdx count.toNat

/-- VirtualMachine::executeCPTOPSP (lines 324-331). -/
def executeCPTOPSP (stack : List Variable) (ins : Instruction) : List Variable :=
  let count : Int := Int.tdiv ins.size 4
  let srcIdx : Int := (stack.length : Int) + Int.tdiv ins.stackOffset 4
  pushSlots stack srcIdx count.toNat

/-- VirtualMachine::executeCPDOWNBP (lines 1034-1042): like CPDOWNSP but the
destination indexes from the global/local boundary. -/
def executeCPDOWNBP (stack : List Variable) (globalCount : Int) (ins : Instruction) :
    List Variable :=
  let count : Int := Int.tdiv ins.size 4
  let srcIdx : Int := (stack.length : Int) - count
  let dstIdx : Int := globalCount + Int.tdiv ins.stackOffset 4
  copySlots stack srcIdx dstIdx count.toNat

/-- VirtualMachine::executeCPTOPBP (lines 1044-1051): like CPTOPSP but the
source indexes from the global/local boundary. -/
def executeCPTOPBP (stack : List Variable) (globalCount : Int) (ins : Instruction) :
    List Variable :=
  let count : Int := Int.tdiv ins.size 4
  let srcIdx : Int := globalCount + Int.tdiv ins.stackOffset 4
  pushSlots stack srcIdx count.toNat

/-- The SHRIGHTII result on already-popped operands (lines 709-721): negative
left operands are negated, shifted, and negated back; a shift of a nonnegative
value by r bits is truncating division by two to the r. -/
def shrightII (left right : Int) : Int :=
  if left < 0 then -(Int.tdiv (-left) (2 ^ right.toNat))
  else Int.tdiv left (2 ^ right.toNat)

/-- VirtualMachine::executeSHRIGHTII (lines 709-721). -/
def executeSHRIGHTII (s : List Variable) : Except Unit (List Variable) :=
  withIntsFromStack (fun l r => Variable.int (shrightII l r)) s

/-- VirtualMachine::executeADDII (lines 731-737). -/
def executeADDII (s : List Variable) : Except Unit (List Variable) :=
  withIntsFromStack (fun l r => Variable.int (l + r)) s

/-- VirtualMachine::executeDIVFF (lines 903-909): the divisor is clamped from
below by kFloatTolerance. -/
def executeDIVFF (s : List Variable) : Except Unit (List Variable) :=
  withFloatsFromStack (fun l r => Variable.float (l / max kFloatTolerance r)) s

/-- VirtualMachine::executeEQUALFF (lines 481-487): tolerance comparison. -/
def executeEQUALFF (s : List Variable) : Except Unit (List Variable) :=
  withFloatsFromStack
    (fun l r => Variable.int (if fabsQ (l - r) < kFloatTolerance then 1 else 0)) s

/-- VirtualMachine::executeNEQUALFF (lines 563-569): exact inequality. -/
def executeNEQUALFF (s : List Variable) : Except Unit (List Variable) :=
  withFloatsFromStack (fun l r => Variable.int (if l ≠ r then 1 else 0)) s

/-- VirtualMachine::executeMOVSP (lines 953-958). -/
def popN (s : List Variable) : Nat → List Variable
  | 0 => s
  | Nat.succ n => popN s.dropLast n

/-- VirtualMachine::executeMOVSP (lines 953-958): pops -stackOffset/4 slots. -/
def executeMOVSP (stack : List Variable) (ins : Instruction) : List Variable :=
  popN stack (Int.tdiv (-ins.stackOffset) 4).toNat

/-- VirtualMachine::executeSTORE_STATE (lines 1082-1101): snapshots the size/4
stack slots ending at the global/local boundary as globals and the top
sizeLocals/4 slots as locals, and binds the current program and a resume
offset 0x10 bytes past the instruction. -/
def executeSTORE_STATE (p : ScriptProgram) (ins : Instruction) (s : MachineState) :
    MachineState :=
  let count : Int := Int.tdiv ins.size 4
  let srcIdx : Int := s.globalCount - count
  let globals := readSlots s.stack srcIdx count.toNat
  let countLocals : Int := Int.tdiv ins.sizeLocals 4
  let srcLocals : Int := (s.stack.length : Int) - countLocals
  let locals := readSlots s.stack srcLocals countLocals.toNat
  { s with savedState := ⟨globals, locals, some p, ins.offset + 0x10⟩ }

/-- One marshaling step of executeACTION for a Vector-typed routine parameter
(line 383): the popped floats are reassembled into a Vector variable. -/
def vectorArgFromStack (s : List Variable) : Except Unit (Variable × List Variable) :=
  match getVectorFromStack s with
  | .ok ((x, y, z), rest) => .ok (Variable.vec x y z, rest)
  | .error e => .error e

/-- The result push of executeACTION (lines 413-430): Void pushes nothing, a
Vector result is pushed as three floats z, then y, then x, and any other type
pushes the single result variable. A non-Vector variable returned where a
Vector is declared exposes the zero vecValue field of the C++ Variable. -/
def pushActionResult (retType : VariableType) (ret : Variable) (stack : List Variable) :
    List Variable :=
  match retType with
  | .Void => stack
  | .Vector =>
    match ret with
    | .vec x y z => stack ++ [Variable.float z, Variable.float y, Variable.float x]
    | _ => stack ++ [Variable.float 0, Variable.float 0, Variable.float 0]
  | _ => stack ++ [ret]

/-- One dispatch step of the main loop: the handler registered for the opcode,
acting on the machine state (virtualmachine.cpp lines 266-1101). The cursor has
already been advanced by the loop; handlers that branch overwrite
nextInstruction. UNKNOWN opcodes never reach this point, as the loop fails
first. -/
def step (p : ScriptProgram) (ins : Instruction) (s : MachineState) :
    Except Unit MachineState :=
  match ins.type with
  | .CPDOWNSP => .ok { s with stack := executeCPDOWNSP s.stack ins }
  | .RSADDI => .ok { s with stack := s.stack ++ [Variable.int 0] }
  | .CPTOPSP => .ok { s with stack := executeCPTOPSP s.stack ins }
  | .CONSTI => .ok { s with stack := s.stack ++ [Variable.int ins.intValue] }
  | .CONSTF => .ok { s with stack := s.stack ++ [Variable.float ins.floatValue] }
  | .EQUALFF =>
    match executeEQUALFF s.stack with
    | .ok st => .ok { s with stack := st }
    | .error e => .error e
  | .NEQUALFF =>
    match executeNEQUALFF s.stack with
    | .ok st => .ok { s with stack := st }
    | .error e => .error e
  | .SHRIGHTII =>
    match executeSHRIGHTII s.stack with
    | .ok st => .ok { s with stack := st }
    | .error e => .error e
  | .ADDII =>
    match executeADDII s.stack with
    | .ok st => .ok { s with stack := st }
    | .error e => .error e
  | .DIVFF =>
    match executeDIVFF s.stack with
    | .ok st => .ok { s with stack := st }
    | .error e => .error e
  | .MOVSP => .ok { s with stack := executeMOVSP s.stack ins }
  | .JMP => .ok { s with nextInstruction := ((ins.offset : Int) + ins.jumpOffset).toNat }
  | .JSR =>
    .ok { s with returnOffsets := s.returnOffsets ++ [ins.nextOffset],
                 nextInstruction := ((ins.offset : Int) + ins.jumpOffset).toNat }
  | .JZ =>
    match getIntFromStack s.stack with
    | .ok (n, st) =>
      if n = 0 then
        .ok { s with stack := st,
                     nextInstruction := ((ins.offset : Int) + ins.jumpOffset).toNat }
      else .ok { s with stack := st }
    | .error e => .error e
  | .JNZ =>
    match getIntFromStack s.stack with
    | .ok (n, st) =>
      if n ≠ 0 then
        .ok { s with stack := st,
                     nextInstruction := ((ins.offset : Int) + ins.jumpOffset).toNat }
      else .ok { s with stack := st }
    | .error e => .error e
  | .RETN =>
    match s.returnOffsets.getLast? with
    | none => .ok { s with nextInstruction := p.length }
    | some off => .ok { s with nextInstruction := off,
                               returnOffsets := s.returnOffsets.dropLast }
  | .CPDOWNBP => .ok { s with stack := executeCPDOWNBP s.stack s.globalCount ins }
  | .CPTOPBP => .ok { s with stack := executeCPTOPBP s.stack s.globalCount ins }
  | .SAVEBP =>
    .ok { s with globalCount := (s.stack.length : Int),
                 stack := s.stack ++ [Variable.int (s.stack.length : Int)] }
  | .RESTOREBP =>
    match getIntFromStack s.stack with
    | .ok (n, st) => .ok { s with globalCount := n, stack := st }
    | .error e => .error e
  | .STORE_STATE => .ok (executeSTORE_STATE p ins s)
  | .NOP => .ok s
  | .NOP2 => .ok s
  | .UNKNOWN _ => .ok s

/-- Outcome of the main loop: normal fallthrough past the program length with
the final state, a halt with the failure sentinel, or fuel exhaustion (the C++
loop carries no fuel; any terminating C++ run corresponds to a large enough
fuel). -/
inductive RunResult
  | finished (s : MachineState)
  | failure
  | outOfFuel
deriving DecidableEq

/-- The main loop of VirtualMachine::run (lines 228-257): while the cursor is
inside the program, decode, fail on an unregistered opcode, advance the cursor
to the natural successor, run the handler, fail if it raised, and continue at
whatever nextInstruction the handler left. -/
def runLoop (p : ScriptProgram) : Nat → MachineState → RunResult
  | 0, _ => .outOfFuel
  | Nat.succ fuel, s =>
    if s.insOff < p.length then
      match p.getInstruction s.insOff with
      | none => .failure
      | some ins =>
        if hasHandler ins.type then
          match step p ins { s with nextInstruction := ins.nextOffset } with
          | .ok t => runLoop p fuel { t with insOff := t.nextInstruction }
          | .error _ => .failure
        else .failure
    else .finished s

/-- The return-value computation at the bottom of run (lines 259-263). -/
def returnValue (s : MachineState) : Int :=
  match s.stack.getLast? with
  | some (Variable.int n) => n
  | _ => -1

/-- The initialization of run (lines 199-211): with a saved state, restore the
globals, record their count as the boundary, append the locals, and start at
the saved resume offset; otherwise start empty at the fixed entry offset. -/
def initialState (ctx : ExecutionContext) : MachineState :=
  match ctx.savedState with
  | some st =>
    { stack := st.globals ++ st.locals
      returnOffsets := []
      globalCount := (st.globals.length : Int)
      nextInstruction := 0
      savedState := ExecutionState.empty
      insOff := st.insOffset }
  | none =>
    { stack := []
      returnOffsets := []
      globalCount := 0
      nextInstruction := 0
      savedState := ExecutionState.empty
      insOff := kStartInstructionOffset }

/-- VirtualMachine::run (lines 199-264); none models a run whose fuel ran out
before the C++ loop would have ended. -/
def run (p : ScriptProgram) (ctx : ExecutionContext) (fuel : Nat) : Option Int :=
  match runLoop p fuel (initialState ctx) with
  | .finished s => some (returnValue s)
  | .failure => some (-1)
  | .outOfFuel => none

/-- The end-to-end scenario program CONSTI 2; CONSTI 3; ADDII; RETN, laid out
from the fixed entry offset 13 with the byte widths of the original encoding
(6 bytes per CONSTI, 2 per ADDII and RETN). -/
def demoProgram : ScriptProgram :=
  ⟨"demo", 29,
    [{ Instruction.mk0 .CONSTI 13 19 with intValue := 2 },
     { Instruction.mk0 .CONSTI 19 25 with intValue := 3 },
     Instruction.mk0 .ADDII 25 27,
     Instruction.mk0 .RETN 27 29]⟩

/-- A program whose first instruction carries an opcode with no registered
handler. -/
def badProgram : ScriptProgram := ⟨"bad", 20, [Instruction.mk0 (.UNKNOWN 255) 13 15]⟩

/-- A program whose first instruction is an ADDII on an empty stack, so its
handler raises an error during the first step. -/
def errProgram : ScriptProgram := ⟨"err", 20, [Instruction.mk0 .ADDII 13 15]⟩

end VirtualMachine

namespace DoCommandAction

/-- The assignment arg.var.objectId = actor.id() in DoCommandAction::execute
(docommand.cpp line 51). The C++ writes the objectId union member; by the
Argument construction invariant a Caller argument holds an Object variable, and
the claim theorems restrict to that case. -/
def updateObjectId (v : Variable) (id : Nat) : Variable :=
  match v with
  | .object _ => .object id
  | other => other

/-- The search-and-overwrite loop of DoCommandAction::execute (docommand.cpp
lines 48-55): rewrite the first Caller argument in place and stop; none when no
Caller argument exists. -/
def rebindLoop (id : Nat) : List Argument → Option (List Argument)
  | [] => none
  | a :: rest =>
    if a.kind = ArgKind.Caller then some ({ a with var := updateObjectId a.var id } :: rest)
    else (rebindLoop id rest).map (fun r => a :: r)

/-- The argument rebinding of DoCommandAction::execute (docommand.cpp lines
48-59): overwrite the first Caller argument with the new actor id, or append a
freshly constructed (and verified) Caller argument when none exists. -/
def rebindCaller (args : List Argument) (actorId : Nat) : Except Unit (List Argument) :=
  match rebindLoop actorId args with
  | some rebound => .ok rebound
  | none =>
    match mkArgument ArgKind.Caller (Variable.object actorId) with
    | .ok a => .ok (args ++ [a])
    | .error e => .error e

end DoCommandAction

end Reone

deriving instance DecidableEq for Except

namespace Reone

theorem popVar_concat (s : List Variable) (v : Variable) :
    popVar (s ++ [v]) = .ok (v, s) := by
  simp [popVar]

theorem popVar_concat2 (s : List Variable) (a b : Variable) :
    popVar (s ++ [a, b]) = .ok (b, s ++ [a]) := by
  have h : s ++ [a, b] = (s ++ [a]) ++ [b] := by simp
  rw [h, popVar_concat]

theorem popVar_concat3 (s : List Variable) (a b c : Variable) :
    popVar (s ++ [a, b, c]) = .ok (c, s ++ [a, b]) := by
  have h : s ++ [a, b, c] = (s ++ [a, b]) ++ [c] := by simp
  rw [h, popVar_concat]

theorem getIntFromStack_concat (s : List Variable) (n : Int) :
    getIntFromStack (s ++ [Variable.int n]) = .ok (n, s) := by
  simp [getIntFromStack, popVar_concat]

theorem getFloatFromStack_concat (s : List Variable) (x : SFloat) :
    getFloatFromStack (s ++ [Variable.float x]) = .ok (x, s) := by
  simp [getFloatFromStack, popVar_concat]

theorem withStackVariables_concat (s : List Variable) (a b : Variable) :
    withStackVariables (s ++ [a, b]) = .ok (a, b, s) := by
  simp [withStackVariables, popVar_concat2, popVar_concat]

theorem withIntsFromStack_concat (fn : Int → Int → Variable) (s : List Variable)
    (l r : Int) :
    withIntsFromStack fn (s ++ [Variable.int l, Variable.int r]) = .ok (s ++ [fn l r]) := by
  simp [withIntsFromStack, withStackVariables_concat]

theorem withFloatsFromStack_concat (fn : SFloat → SFloat → Variable) (s : List Variable)
    (l r : SFloat) :
    withFloatsFromStack fn (s ++ [Variable.float l, Variable.float r]) =
      .ok (s ++ [fn l r]) := by
  simp [withFloatsFromStack, withStackVariables_concat]

theorem getFloatFromStack_concat2 (s : List Variable) (x y : SFloat) :
    getFloatFromStack (s ++ [Variable.float x, Variable.float y]) =
      .ok (y, s ++ [Variable.float x]) := by
  simp [getFloatFromStack, popVar_concat2]

theorem getFloatFromStack_concat3 (s : List Variable) (x y z : SFloat) :
    getFloatFromStack
        (s ++ [Variable.float x, Variable.float y, Variable.float z]) =
      .ok (z, s ++ [Variable.float x, Variable.float y]) := by
  simp [getFloatFromStack, popVar_concat3]

theorem getVectorFromStack_concat (s : List Variable) (x y z : SFloat) :
    getVectorFromStack
        (s ++ [Variable.float x, Variable.float y, Variable.float z]) =
      .ok ((x, y, z), s) := by
  simp [getVectorFromStack, getFloatFromStack_concat3, getFloatFromStack_concat2,
        getFloatFromStack_concat]

namespace VirtualMachine

/-- C6: the ACTION handler marshals a Vector-typed routine parameter by popping
three Float variables, naming them z, y, x in pop order, and assembling the
vector (x, y, z): on a stack whose top three floats are z, y, x reading from
the top, the marshaled vector is exactly (x, y, z); a Vector-typed routine
result is pushed back as three Float variables in the temporal order z, y, x;
hence three pushed floats round-trip through a Vector parameter exactly. -/
theorem spec_c6_vector_roundtrip :
    (∀ (s : List Variable) (x y z : SFloat),
      getVectorFromStack
          (s ++ [Variable.float x, Variable.float y, Variable.float z]) =
        .ok ((x, y, z), s)) ∧
    (∀ (s : List Variable) (x y z : SFloat),
      vectorArgFromStack
          (s ++ [Variable.float x, Variable.float y, Variable.float z]) =
        .ok (Variable.vec x y z, s)) ∧
    (∀ (stack : List Variable) (x y z : SFloat),
      pushActionResult VariableType.Vector (Variable.vec x y z) stack =
        stack ++ [Variable.float z, Variable.float y, Variable.float x]) := by
  refine ⟨fun s x y z => getVectorFromStack_concat s x y z, fun s x y z => ?_, fun stack x y z => rfl⟩
  simp [vectorArgFromStack, getVectorFromStack_concat]

/-- C7: SHRIGHTII pops two Int operands and pushes the negate-shift-negate
result for a negative left operand, which is sign-preserving; shifting -8
right by 1 yields -4. -/
theorem spec_c7_shright_arithmetic :
    (∀ (s : List Variable) (l r : Int),
      executeSHRIGHTII (s ++ [Variable.int l, Variable.int r]) =
        .ok (s ++ [Variable.int (shrightII l r)])) ∧
    (∀ l r : Int, l < 0 → shrightII l r = -(Int.tdiv (-l) (2 ^ r.toNat))) ∧
    (∀ l r : Int, l < 0 → shrightII l r ≤ 0) ∧
    executeSHRIGHTII [Variable.int (-8), Variable.int 1] = .ok [Variable.int (-4)] := by
  refine ⟨fun s l r => withIntsFromStack_concat _ s l r,
          fun l r hl => by simp [shrightII, hl],
          fun l r hl => ?_, by decide⟩
  simp only [shrightII, if_pos hl, Left.neg_nonpos_iff]
  exact Int.tdiv_nonneg (by omega) (by positivity)

/-- C8: DIVFF pops two Float operands and pushes the left operand divided by
the divisor clamped from below by the epsilon 1e-5; with divisor 0 the result
is the numerator divided by the epsilon floor (and in particular finite). -/
theorem spec_c8_divff_clamp :
    (∀ (s : List Variable) (l r : SFloat),
      executeDIVFF (s ++ [Variable.float l, Variable.float r]) =
        .ok (s ++ [Variable.float (l / max kFloatTolerance r)])) ∧
    (∀ (s : List Variable) (l : SFloat),
      executeDIVFF (s ++ [Variable.float l, Variable.float 0]) =
        .ok (s ++ [Variable.float (l / kFloatTolerance)])) := by
  constructor
  · exact fun s l r => withFloatsFromStack_concat _ s l r
  · intro s l
    have hmax : max kFloatTolerance (0 : SFloat) = kFloatTolerance := by
      rw [max_eq_left]
      norm_num [kFloatTolerance]
    have h := withFloatsFromStack_concat
      (fun l r => Variable.float (l / max kFloatTolerance r)) s l 0
    rw [executeDIVFF, h, hmax]

/-- C10: EQUALFF pushes int 1 exactly when the absolute difference of its two
Float operands is below the 1e-5 tolerance, while NEQUALFF pushes int 1 for
exact inequality; for the operands 0 and 5e-6 both handlers push int 1, so
NEQUALFF is not the logical negation of EQUALFF. -/
theorem spec_c10_equalff_nequalff :
    (∀ (s : List Variable) (l r : SFloat),
      executeEQUALFF (s ++ [Variable.float l, Variable.float r]) =
        .ok (s ++ [Variable.int (if fabsQ (l - r) < kFloatTolerance then 1 else 0)])) ∧
    (∀ (s : List Variable) (l r : SFloat),
      executeNEQUALFF (s ++ [Variable.float l, Variable.float r]) =
        .ok (s ++ [Variable.int (if l ≠ r then 1 else 0)])) ∧
    executeEQUALFF [Variable.float 0, Variable.float (1 / 200000)] =
      .ok [Variable.int 1] ∧
    executeNEQUALFF [Variable.float 0, Variable.float (1 / 200000)] =
      .ok [Variable.int 1] := by
  have heq := fun (s : List Variable) (l r : SFloat) => withFloatsFromStack_concat
    (fun l r => Variable.int (if fabsQ (l - r) < kFloatTolerance then 1 else 0)) s l r
  have hne := fun (s : List Variable) (l r : SFloat) => withFloatsFromStack_concat
    (fun l r => Variable.int (if l ≠ r then 1 else 0)) s l r
  refine ⟨fun s l r => heq s l r, fun s l r => hne s l r, ?_, ?_⟩
  · have h := heq [] 0 (1 / 200000)
    rw [List.nil_append, List.nil_append] at h
    rw [executeEQUALFF, h]
    have hcond : fabsQ ((0 : SFloat) - 1 / 200000) < kFloatTolerance := by
      rw [fabsQ, if_pos (by norm_num)]
      norm_num [kFloatTolerance]
    rw [if_pos hcond]
  · have h := hne [] 0 (1 / 200000)
    rw [List.nil_append, List.nil_append] at h
    rw [executeNEQUALFF, h]
    rw [if_pos (by norm_num)]

end VirtualMachine

end Reone

namespace Reone

namespace VirtualMachine

theorem spec_c7_shright_arithmetic_witness :
    executeSHRIGHTII ([] ++ [Variable.int (-8), Variable.int 1]) =
      .ok ([] ++ [Variable.int (shrightII (-8) 1)]) ∧
    shrightII (-8) 1 = -(Int.tdiv (-(-8)) (2 ^ (1 : Int).toNat)) ∧
    shrightII (-8) 1 ≤ 0 :=
  ⟨spec_c7_shright_arithmetic.1 [] (-8) 1,
   spec_c7_shright_arithmetic.2.1 (-8) 1 (by decide),
   spec_c7_shright_arithmetic.2.2.1 (-8) 1 (by decide)⟩

theorem copySlots_length (n : Nat) :
    ∀ (s : List Variable) (src dst : Int), (copySlots s src dst n).length = s.length := by
  induction n with
  | zero => intro s src dst; rfl
  | succ n ih => intro s src dst; simp [copySlots, ih]

theorem pushSlots_length (n : Nat) :
    ∀ (s : List Variable) (src : Int), (pushSlots s src n).length = s.length + n := by
  induction n with
  | zero => intro s src; rfl
  | succ n ih => intro s src; simp [pushSlots, ih]; omega

/-- C4 (counterexample): CPTOPSP on the one-variable stack with encoded size 4
and stack offset -4 grows the stack from one variable to two, so stack-region
copies do not all leave the stack size unchanged. -/
theorem spec_c4_counterexample :
    ¬ ((executeCPTOPSP [Variable.int 7]
          { Instruction.mk0 InstructionType.CPTOPSP 0 2 with
              size := 4, stackOffset := -4 }).length =
        ([Variable.int 7] : List Variable).length) := by
  decide

/-- C4 (amended): the copy-down instructions CPDOWNSP and CPDOWNBP leave the
operand stack size unchanged for every stack and every encoded size/offset,
while the copy-top instructions CPTOPSP and CPTOPBP push copies and grow the
stack by size/4 variables. -/
theorem spec_c4_copy_stack_size :
    ∀ (stack : List Variable) (globalCount : Int) (ins : Instruction),
      (executeCPDOWNSP stack ins).length = stack.length ∧
      (executeCPDOWNBP stack globalCount ins).length = stack.length ∧
      (executeCPTOPSP stack ins).length =
        stack.length + (Int.tdiv ins.size 4).toNat ∧
      (executeCPTOPBP stack globalCount ins).length =
        stack.length + (Int.tdiv ins.size 4).toNat := by
  intro stack globalCount ins
  exact ⟨by simp [executeCPDOWNSP, copySlots_length],
         by simp [executeCPDOWNBP, copySlots_length],
         by simp [executeCPTOPSP, pushSlots_length],
         by simp [executeCPTOPBP, pushSlots_length]⟩

end VirtualMachine

namespace DoCommandAction

theorem rebindLoop_found (id : Nat) (post : List Argument) (oldId : Nat) :
    ∀ (pre : List Argument), (∀ a ∈ pre, a.kind ≠ ArgKind.Caller) →
      rebindLoop id (pre ++ ⟨ArgKind.Caller, Variable.object oldId⟩ :: post) =
        some (pre ++ ⟨ArgKind.Caller, Variable.object id⟩ :: post) := by
  intro pre
  induction pre with
  | nil => intro _; simp [rebindLoop, updateObjectId]
  | cons a rest ih =>
    intro h
    have ha : a.kind ≠ ArgKind.Caller := h a (by simp)
    have hrest : ∀ b ∈ rest, b.kind ≠ ArgKind.Caller := fun b hb => h b (by simp [hb])
    simp [rebindLoop, ha, ih hrest]

theorem rebindLoop_none (id : Nat) :
    ∀ (args : List Argument), (∀ a ∈ args, a.kind ≠ ArgKind.Caller) →
      rebindLoop id args = none := by
  intro args
  induction args with
  | nil => intro _; rfl
  | cons a rest ih =>
    intro h
    have ha : a.kind ≠ ArgKind.Caller := h a (by simp)
    have hrest : ∀ b ∈ rest, b.kind ≠ ArgKind.Caller := fun b hb => h b (by simp [hb])
    simp [rebindLoop, ha, ih hrest]

/-- C5: the DoCommand-style resume rewrites the first Caller argument in place
to reference the new actor id, leaving every other argument unchanged in kind
and value, and appends a verified Caller argument referencing the new actor
when none was present; in particular a context with Caller=Object(5) rebound to
actor 9 yields Caller=Object(9) with all other arguments untouched. -/
theorem spec_c5_docommand_rebind :
    (∀ (pre post : List Argument) (oldId newId : Nat),
      (∀ a ∈ pre, a.kind ≠ ArgKind.Caller) →
      rebindCaller (pre ++ ⟨ArgKind.Caller, Variable.object oldId⟩ :: post) newId =
        .ok (pre ++ ⟨ArgKind.Caller, Variable.object newId⟩ :: post)) ∧
    (∀ (args : List Argument) (newId : Nat),
      (∀ a ∈ args, a.kind ≠ ArgKind.Caller) → newId ≠ kObjectSelf →
      rebindCaller args newId =
        .ok (args ++ [⟨ArgKind.Caller, Variable.object newId⟩])) ∧
    rebindCaller
        [⟨ArgKind.LastOpenedBy, Variable.object 3⟩,
         ⟨ArgKind.Caller, Variable.object 5⟩,
         ⟨ArgKind.ScriptVar, Variable.int 7⟩] 9 =
      .ok [⟨ArgKind.LastOpenedBy, Variable.object 3⟩,
           ⟨ArgKind.Caller, Variable.object 9⟩,
           ⟨ArgKind.ScriptVar, Variable.int 7⟩] := by
  refine ⟨fun pre post oldId newId h => ?_, fun args newId h hself => ?_, by decide⟩
  · simp [rebindCaller, rebindLoop_found newId post oldId pre h]
  · simp [rebindCaller, rebindLoop_none newId args h, mkArgument, verifyArgument, hself]

theorem spec_c5_docommand_rebind_witness :
    rebindCaller
        ([⟨ArgKind.LastOpenedBy, Variable.object 3⟩] ++
          ⟨ArgKind.Caller, Variable.object 5⟩ :: [⟨ArgKind.ScriptVar, Variable.int 7⟩]) 9 =
      .ok ([⟨ArgKind.LastOpenedBy, Variable.object 3⟩] ++
          ⟨ArgKind.Caller, Variable.object 9⟩ :: [⟨ArgKind.ScriptVar, Variable.int 7⟩]) ∧
    rebindCaller [⟨ArgKind.ScriptVar, Variable.int 7⟩] 9 =
      .ok ([⟨ArgKind.ScriptVar, Variable.int 7⟩] ++
          [⟨ArgKind.Caller, Variable.object 9⟩]) :=
  ⟨spec_c5_docommand_rebind.1 [⟨ArgKind.LastOpenedBy, Variable.object 3⟩]
      [⟨ArgKind.ScriptVar, Variable.int 7⟩] 5 9 (by decide),
   spec_c5_docommand_rebind.2.1 [⟨ArgKind.ScriptVar, Variable.int 7⟩] 9
      (by decide) (by decide)⟩

end DoCommandAction

/-- C9: the verifying Argument constructor succeeds exactly when the
kind/variable pairing holds - an object-kind argument holds an Object variable
whose id is not the self sentinel and a numeric-kind argument holds an Int
variable - and otherwise raises the invalid-argument error at construction
time, before any machine runs. -/
theorem spec_c9_argument_pairing :
    ∀ (kind : ArgKind) (var : Variable),
      ((mkArgument kind var = .ok ⟨kind, var⟩) ↔ argPairingOk kind var) ∧
      (mkArgument kind var = .ok ⟨kind, var⟩ ∨ mkArgument kind var = .error ()) := by
  intro kind var
  constructor
  · cases kind <;> cases var <;>
      simp [mkArgument, verifyArgument, argPairingOk, ArgKind.isObjectKind,
            ArgKind.isNumericKind] <;>
      split_ifs <;> simp_all
  · cases kind <;> cases var <;>
      simp [mkArgument, verifyArgument] <;> split_ifs <;> simp

end Reone

namespace Reone

namespace VirtualMachine

theorem readSlots_eq_drop_take (n : Nat) :
    ∀ (s : List Variable) (i : Nat), i + n ≤ s.length →
      readSlots s (i : Int) n = (s.drop i).take n := by
  induction n with
  | zero => intro s i h; simp [readSlots]
  | succ n ih =>
    intro s i h
    have hi : i < s.length := by omega
    have h1 : ((i : Int) + 1) = ((i + 1 : Nat) : Int) := by push_cast; ring
    rw [readSlots, h1, ih s (i + 1) (by omega)]
    rw [List.drop_eq_getElem_cons hi, List.take_succ_cons]
    simp [List.getD_eq_getElem?_getD, List.getElem?_eq_getElem hi]

theorem take_drop_middle2 (pre glob rest : List Variable) :
    ((pre ++ (glob ++ rest)).drop pre.length).take glob.length = glob := by
  rw [List.drop_left, List.take_left]

/-- C2: a machine constructed from a context with a saved state starts with the
saved globals restored onto the stack, the global/local boundary at their
count, the saved locals appended above them, and the cursor at the saved resume
offset; conversely STORE_STATE captures as globals the size/4 stack entries
ending at the global/local boundary, as locals the top sizeLocals/4 entries,
together with the current program and a resume offset equal to the instruction
offset plus 0x10, leaving the running stack untouched. -/
theorem spec_c2_save_resume :
    (∀ (ctx : ExecutionContext) (st : ExecutionState),
      ctx.savedState = some st →
      (initialState ctx).stack = st.globals ++ st.locals ∧
      (initialState ctx).globalCount = (st.globals.length : Int) ∧
      (initialState ctx).insOff = st.insOffset) ∧
    (∀ (p : ScriptProgram) (ins : Instruction) (s : MachineState)
        (pre glob mid loc : List Variable),
      s.stack = pre ++ (glob ++ (mid ++ loc)) →
      s.globalCount = ((pre.length + glob.length : Nat) : Int) →
      Int.tdiv ins.size 4 = (glob.length : Int) →
      Int.tdiv ins.sizeLocals 4 = (loc.length : Int) →
      (executeSTORE_STATE p ins s).savedState =
        ⟨glob, loc, some p, ins.offset + 16⟩ ∧
      (executeSTORE_STATE p ins s).stack = s.stack ∧
      (executeSTORE_STATE p ins s).insOff = s.insOff) := by
  constructor
  · intro ctx st h
    simp [initialState, h]
  · intro p ins s pre glob mid loc hstack hg hsize hlocals
    have hlen : s.stack.length = pre.length + glob.length + mid.length + loc.length := by
      rw [hstack]; simp; omega
    have e1 : s.globalCount - Int.tdiv ins.size 4 = ((pre.length : Nat) : Int) := by
      rw [hg, hsize]; push_cast; ring
    have e2 : (Int.tdiv ins.size 4).toNat = glob.length := by rw [hsize]; simp
    have e3 : (s.stack.length : Int) - Int.tdiv ins.sizeLocals 4 =
        (((pre ++ (glob ++ mid)).length : Nat) : Int) := by
      rw [hlocals, hlen]; push_cast; simp; ring
    have e4 : (Int.tdiv ins.sizeLocals 4).toNat = loc.length := by rw [hlocals]; simp
    refine ⟨?_, rfl, rfl⟩
    simp only [executeSTORE_STATE]
    rw [e1, e2, e3, e4]
    rw [readSlots_eq_drop_take glob.length s.stack pre.length (by omega)]
    rw [readSlots_eq_drop_take loc.length s.stack (pre ++ (glob ++ mid)).length
        (by simp at hlen ⊢; omega)]
    have hglob : (s.stack.drop pre.length).take glob.length = glob := by
      rw [hstack, take_drop_middle2]
    have hsplit : s.stack = (pre ++ (glob ++ mid)) ++ loc := by rw [hstack]; simp
    have hloc : (s.stack.drop (pre ++ (glob ++ mid)).length).take loc.length = loc := by
      rw [hsplit, List.drop_left, List.take_length]
    rw [hglob, hloc]

theorem spec_c2_save_resume_witness :
    (initialState ⟨some ⟨[Variable.int 1], [Variable.int 2], none, 40⟩, []⟩).stack =
      [Variable.int 1] ++ [Variable.int 2] ∧
    (initialState ⟨some ⟨[Variable.int 1], [Variable.int 2], none, 40⟩, []⟩).globalCount =
      (([Variable.int 1] : List Variable).length : Int) ∧
    (initialState ⟨some ⟨[Variable.int 1], [Variable.int 2], none, 40⟩, []⟩).insOff = 40 ∧
    (executeSTORE_STATE ⟨"w", 0, []⟩
        { Instruction.mk0 .STORE_STATE 4 20 with size := 4, sizeLocals := 4 }
        ⟨[Variable.int 1, Variable.int 2, Variable.int 3], [], 2, 0,
         ExecutionState.empty, 7⟩).savedState =
      ⟨[Variable.int 2], [Variable.int 3], some ⟨"w", 0, []⟩,
       ({ Instruction.mk0 .STORE_STATE 4 20 with
            size := 4, sizeLocals := 4 } : Instruction).offset + 16⟩ := by
  have h1 := spec_c2_save_resume.1
    ⟨some ⟨[Variable.int 1], [Variable.int 2], none, 40⟩, []⟩
    ⟨[Variable.int 1], [Variable.int 2], none, 40⟩ rfl
  have h2 := spec_c2_save_resume.2 ⟨"w", 0, []⟩
    { Instruction.mk0 .STORE_STATE 4 20 with size := 4, sizeLocals := 4 }
    ⟨[Variable.int 1, Variable.int 2, Variable.int 3], [], 2, 0, ExecutionState.empty, 7⟩
    [Variable.int 1] [Variable.int 2] [] [Variable.int 3]
    (by decide) (by decide) (by decide) (by decide)
  exact ⟨h1.1, h1.2.1, h1.2.2, h2.1⟩

/-- C1: whenever the main loop terminates by the cursor reaching or passing the
program length, run returns the int payload of the top stack variable when the
final stack is non-empty with an Int-tagged top, and the failure sentinel -1
otherwise; the program CONSTI 2; CONSTI 3; ADDII; RETN run with no saved state
and no arguments returns 5. -/
theorem spec_c1_run_return :
    (∀ (p : ScriptProgram) (ctx : ExecutionContext) (fuel : Nat) (s : MachineState),
      runLoop p fuel (initialState ctx) = RunResult.finished s →
      (∀ n : Int, s.stack.getLast? = some (Variable.int n) → run p ctx fuel = some n) ∧
      ((¬ ∃ n : Int, s.stack.getLast? = some (Variable.int n)) →
        run p ctx fuel = some (-1))) ∧
    run demoProgram ⟨none, []⟩ 10 = some 5 := by
  constructor
  · intro p ctx fuel s h
    constructor
    · intro n hn
      simp [run, h, returnValue, hn]
    · intro hn
      rcases hv : s.stack.getLast? with _ | v
      · simp [run, h, returnValue, hv]
      · cases v <;> simp [run, h, returnValue, hv]
        exact absurd ⟨_, hv⟩ hn
  · decide

theorem spec_c1_run_return_witness :
    runLoop demoProgram 10 (initialState ⟨none, []⟩) =
      RunResult.finished ⟨[Variable.int 5], [], 0, 29, ExecutionState.empty, 29⟩ ∧
    run demoProgram ⟨none, []⟩ 10 = some 5 :=
  ⟨by decide,
   (spec_c1_run_return.1 demoProgram ⟨none, []⟩ 10
      ⟨[Variable.int 5], [], 0, 29, ExecutionState.empty, 29⟩ (by decide)).1 5 (by decide)⟩

/-- C3: when the decoded instruction at the cursor has no registered handler,
or the handler for the current instruction raises an error during its step, the
main loop halts immediately with the failure outcome and run returns the
failure sentinel -1 instead of propagating the error; in particular a program
whose first instruction carries an unrecognized opcode returns -1. -/
theorem spec_c3_error_handling :
    (∀ (p : ScriptProgram) (fuel : Nat) (s : MachineState) (ins : Instruction),
      s.insOff < p.length → p.getInstruction s.insOff = some ins →
      hasHandler ins.type = false →
      runLoop p (fuel + 1) s = RunResult.failure) ∧
    (∀ (p : ScriptProgram) (fuel : Nat) (s : MachineState) (ins : Instruction),
      s.insOff < p.length → p.getInstruction s.insOff = some ins →
      hasHandler ins.type = true →
      step p ins { s with nextInstruction := ins.nextOffset } = .error () →
      runLoop p (fuel + 1) s = RunResult.failure) ∧
    (∀ (p : ScriptProgram) (ctx : ExecutionContext) (fuel : Nat),
      runLoop p fuel (initialState ctx) = RunResult.failure →
      run p ctx fuel = some (-1)) ∧
    run badProgram ⟨none, []⟩ 5 = some (-1) := by
  refine ⟨fun p fuel s ins h1 h2 h3 => ?_, fun p fuel s ins h1 h2 h3 h4 => ?_,
          fun p ctx fuel h => ?_, by decide⟩
  · simp [runLoop, h1, h2, h3]
  · simp [runLoop, h1, h2, h3, h4]
  · simp [run, h]

theorem spec_c3_error_handling_witness :
    runLoop badProgram 1 (initialState ⟨none, []⟩) = RunResult.failure ∧
    runLoop errProgram 1 (initialState ⟨none, []⟩) = RunResult.failure ∧
    run badProgram ⟨none, []⟩ 5 = some (-1) :=
  ⟨spec_c3_error_handling.1 badProgram 0 (initialState ⟨none, []⟩)
      (Instruction.mk0 (.UNKNOWN 255) 13 15) (by decide) (by decide) (by decide),
   spec_c3_error_handling.2.1 errProgram 0 (initialState ⟨none, []⟩)
      (Instruction.mk0 .ADDII 13 15) (by decide) (by decide) (by decide) (by decide),
   spec_c3_error_handling.2.2.1 badProgram ⟨none, []⟩ 5 (by decide)⟩

end VirtualMachine

end Reone
